import Mathlib

/-!
Verification of the `dashboard/views.py` data-normalization and aggregation
routine of the django_data_monitor repository.

The Python code is shallowly embedded: pure functions become Lean functions,
fallible library calls (which raise exceptions in Python) become
`Option`-valued functions where `none` models the raised exception, and the
view returns `Option Context` where `none` models an exception escaping to
the HTTP layer.

Machine-level caveats of the model, stated once here:
* Python `datetime.datetime` values are modelled by `PyDatetime`:
  calendar/time fields plus an optional UTC offset in minutes
  (`none` models a naive datetime, `some` an aware one).
* `datetime.fromisoformat` is modelled after CPython 3.11 semantics
  (the runtime the repository targets today), restricted to the dashed
  calendar-date form `YYYY-MM-DD`, an optional time introduced by one
  arbitrary separator character `HH[:MM[:SS[.fff...]]]` (fractions of any
  positive width, truncated to 6 digits), and an optional `+HH:MM`/`-HH:MM`
  offset.  Compact separator-free dates, `Z` suffixes (always replaced
  upstream by `_parse_iso` before the call), fractional hours/minutes and
  offsets with seconds are outside the model; no claim depends on them.
* Python `list.sort` raises `TypeError` as soon as it compares a naive and
  an aware datetime; Timsort compares every adjacent pair during run
  detection, so any key list containing both kinds raises.  This is
  modelled by `sortEntriesDesc` returning `none` exactly when the key list
  mixes naive and aware values.
* `round(x, 2)` is modelled exactly, scaled by 100 to an integer
  (`avgHundredths`), with round-half-to-even; binary
  floating-point representation artifacts are outside the model.
* Input payloads are modelled as JSON null or an object whose `"data"`
  member is absent, null, or a string-keyed mapping of (possibly null)
  records with optional string `id`/`timestamp` fields — the shapes the
  specification and the code contemplate.
-/

namespace DataMonitor

/-- The empty string (named so that string literals never directly follow an
identifier in application position). -/
def emptyStr : String := ""

/-- Model of a Python `datetime.datetime`: calendar and time fields plus an
optional timezone offset in minutes (`none` = naive, `some` = aware). -/
structure PyDatetime where
  year : Nat
  month : Nat
  day : Nat
  hour : Nat
  minute : Nat
  second : Nat
  microsecond : Nat
  tzOffsetMinutes : Option Int
deriving DecidableEq

/-- Python's `datetime.min`: 0001-01-01T00:00:00, naive. -/
def datetimeMin : PyDatetime := ⟨1, 1, 1, 0, 0, 0, 0, none⟩

/-- Proleptic Gregorian leap-year test, as in Python's `datetime` module. -/
def isLeapYear (y : Nat) : Bool := y % 4 == 0 && (y % 100 != 0 || y % 400 == 0)

/-- Number of days in a month of a given year (Python `calendar` rules). -/
def daysInMonth (y m : Nat) : Nat :=
  if m = 2 then (if isLeapYear y then 29 else 28)
  else if m = 4 ∨ m = 6 ∨ m = 9 ∨ m = 11 then 30
  else 31

/-- Decimal value of a digit character. -/
def digitVal (c : Char) : Nat := c.toNat - 48

/-- Read exactly two decimal digits from the front of a character list. -/
def read2 : List Char → Option (Nat × List Char)
  | a :: b :: rest =>
    if a.isDigit && b.isDigit then some (10 * digitVal a + digitVal b, rest) else none
  | _ => none

/-- Read exactly four decimal digits from the front of a character list. -/
def read4 : List Char → Option (Nat × List Char)
  | a :: b :: c :: d :: rest =>
    if a.isDigit && b.isDigit && c.isDigit && d.isDigit then
      some (1000 * digitVal a + 100 * digitVal b + 10 * digitVal c + digitVal d, rest)
    else none
  | _ => none

/-- Parse a fractional-seconds field: one or more digits; digits beyond the
sixth are consumed but ignored (CPython 3.11 truncation). Returns the value
in microseconds. -/
def parseFrac (cs : List Char) : Option (Nat × List Char) :=
  let ds := cs.takeWhile Char.isDigit
  let rest := cs.dropWhile Char.isDigit
  if ds.isEmpty then none
  else
    let ds6 := ds.take 6
    let v := ds6.foldl (fun a c => 10 * a + digitVal c) 0
    some (v * 10 ^ (6 - ds6.length), rest)

/-- Parse the `HH:MM` part of a UTC offset, requiring end of input after it.
Result is the absolute offset in minutes. -/
def parseOffHM (cs : List Char) : Option Int := do
  let (hh, cs1) ← read2 cs
  match cs1 with
  | ':' :: cs2 => do
    let (mm, cs3) ← read2 cs2
    guard (cs3 = [])
    guard (hh ≤ 23 ∧ mm ≤ 59)
    pure ((hh * 60 + mm : Nat) : Int)
  | _ => none

/-- Parse an optional `+HH:MM` / `-HH:MM` trailing offset. -/
def parseOff : List Char → Option (Option Int)
  | [] => some none
  | '+' :: rest => (parseOffHM rest).map (fun m => some m)
  | '-' :: rest => (parseOffHM rest).map (fun m => some (-m))
  | _ => none

/-- Parse `HH[:MM[:SS[.frac]]]` returning `(h, mi, s, microsecond, rest)`. -/
def parseHMS (cs : List Char) : Option (Nat × Nat × Nat × Nat × List Char) := do
  let (h, cs1) ← read2 cs
  match cs1 with
  | ':' :: cs2 => do
    let (mi, cs3) ← read2 cs2
    match cs3 with
    | ':' :: cs4 => do
      let (s, cs5) ← read2 cs4
      match cs5 with
      | '.' :: cs6 => do
        let (us, cs7) ← parseFrac cs6
        pure (h, mi, s, us, cs7)
      | _ => pure (h, mi, s, 0, cs5)
    | _ => pure (h, mi, 0, 0, cs3)
  | _ => pure (h, 0, 0, 0, cs1)

/-- Model of CPython 3.11 `datetime.fromisoformat`, restricted as described
in the file header. `none` models a raised `ValueError`. -/
def fromisoformatOpt (s : String) : Option PyDatetime := do
  let (y, cs1) ← read4 s.data
  match cs1 with
  | '-' :: cs2 => do
    let (mo, cs3) ← read2 cs2
    match cs3 with
    | '-' :: cs4 => do
      let (d, cs5) ← read2 cs4
      guard (1 ≤ y ∧ 1 ≤ mo ∧ mo ≤ 12 ∧ 1 ≤ d ∧ d ≤ daysInMonth y mo)
      match cs5 with
      | [] => pure ⟨y, mo, d, 0, 0, 0, 0, none⟩
      | _sep :: cs6 => do
        let (h, mi, sec, us, cs7) ← parseHMS cs6
        guard (h ≤ 23 ∧ mi ≤ 59 ∧ sec ≤ 59)
        let off ← parseOff cs7
        pure ⟨y, mo, d, h, mi, sec, us, off⟩
    | _ => none
  | _ => none

/-- Model of Python `ts.replace("Z", "+00:00")`: every `Z` character is
replaced by the five characters `+00:00`. -/
def pyReplaceZ (s : String) : String :=
  ⟨(s.data.map (fun c =>
      if c = 'Z' then ['+', '0', '0', ':', '0', '0'] else [c])).flatten⟩

/-- Model of Python `s.split(".")` on the character level. -/
def splitDotChars : List Char → List (List Char)
  | [] => [[]]
  | c :: rest =>
    let r := splitDotChars rest
    if c = '.' then [] :: r
    else
      match r with
      | [] => [[c]]
      | g :: gs => (c :: g) :: gs

/-- Model of the destructuring `main, frac = ts.split(".")`: succeeds only
when the string contains exactly one dot; `none` models the `ValueError`
raised by the unpacking otherwise. -/
def splitTwoOpt (s : String) : Option (String × String) :=
  match splitDotChars s.data with
  | [a, b] => some (⟨a⟩, ⟨b⟩)
  | _ => none

/-- Model of the fallback branch of `_parse_iso`:
`main, frac = ts.split("."); frac = (frac + "000000")[:6];
datetime.fromisoformat(f"{main}.{frac}")`.
`none` models any exception raised inside the inner `try`. -/
def parseIsoFallback (ts : String) : Option PyDatetime := do
  let (main, frac) ← splitTwoOpt ts
  let frac6 : List Char := (frac.data ++ ['0', '0', '0', '0', '0', '0']).take 6
  fromisoformatOpt ⟨main.data ++ '.' :: frac6⟩

/-- Model of `_parse_iso` from `dashboard/views.py`: empty input gives
`datetime.min`; otherwise `Z` is replaced by `+00:00`, `fromisoformat` is
tried, then the fraction-padding fallback, and any failure yields
`datetime.min`.  The function is total: every exception the Python body can
raise is caught by its `except` clauses, modelled by the `Option` layers. -/
def _parse_iso (ts : String) : PyDatetime :=
  if ts = emptyStr then datetimeMin
  else
    let t := pyReplaceZ ts
    match fromisoformatOpt t with
    | some d => d
    | none =>
      match parseIsoFallback t with
      | some d => d
      | none => datetimeMin

/-- Days of the proleptic Gregorian calendar strictly before year `y`
(Python `date.toordinal` arithmetic). -/
def daysBeforeYear (y : Nat) : Nat :=
  365 * (y - 1) + (y - 1) / 4 - (y - 1) / 100 + (y - 1) / 400

/-- Days of year `y` strictly before month `m`. -/
def daysBeforeMonth (y m : Nat) : Nat :=
  ((List.range (m - 1)).map (fun i => daysInMonth y (i + 1))).sum

/-- Python `date.toordinal`: day number of the proleptic Gregorian calendar,
with 0001-01-01 as day 1. -/
def toOrdinal (y m d : Nat) : Nat := daysBeforeYear y + daysBeforeMonth y m + d

/-- The instant of a datetime as microseconds on one absolute axis, with the
UTC offset (0 for naive values) subtracted.  Python compares two naive or
two aware datetimes exactly in this order. -/
def absMicros (dt : PyDatetime) : Int :=
  ((toOrdinal dt.year dt.month dt.day) * 86400000000
    + dt.hour * 3600000000 + dt.minute * 60000000
    + dt.second * 1000000 + dt.microsecond : Nat)
  - (dt.tzOffsetMinutes.getD 0) * 60000000

/-- Whether a datetime is timezone-aware (`tzinfo is not None`). -/
def isAware (dt : PyDatetime) : Bool := dt.tzOffsetMinutes.isSome

/-- A record of the payload's `data` mapping: the optional `id` and
`timestamp` string fields the view reads.  Other fields, and fields of
non-string JSON type, play no role in the claims and are outside the model. -/
structure RawRecord where
  id? : Option String
  timestamp? : Option String
deriving DecidableEq

/-- The `data` mapping: association list from record key to record, where
`none` models a JSON `null` record (the `v or {}` case). -/
def RawData := List (String × Option RawRecord)

/-- The value found at the payload's `"data"` key: JSON `null` or a mapping. -/
inductive DataVal where
  | dnull
  | dmap (m : List (String × Option RawRecord))
deriving DecidableEq

/-- The fetched JSON payload: `null`, or an object whose `"data"` member is
absent (`jobj none`) or present (`jobj (some v)`). -/
inductive JsonPayload where
  | jnull
  | jobj (dataVal : Option DataVal)
deriving DecidableEq

/-- Model of `raw = (payload or {}).get("data", {}) or {}`. -/
def extractRaw : JsonPayload → List (String × Option RawRecord)
  | .jnull => []
  | .jobj none => []
  | .jobj (some .dnull) => []
  | .jobj (some (.dmap m)) => m

/-- A normalized entry, the result of `{"id": k, **(v or {})}`: the merged
`id` (the record's own `id` field overrides the mapping key, since the
keyword expansion comes second in the dict literal) and the optional
`timestamp` field. -/
structure Entry where
  id : String
  timestamp : Option String
deriving DecidableEq

/-- Model of `entries = [{"id": k, **(v or {})} for k, v in raw.items()]`. -/
def normalizeEntries (raw : List (String × Option RawRecord)) : List Entry :=
  raw.map (fun kv =>
    let r := kv.2.getD ⟨none, none⟩
    ⟨r.id?.getD kv.1, r.timestamp?⟩)

/-- The sort key `it["_dt"] = _parse_iso(it.get("timestamp"))`: an absent
key passes `None`, which `_parse_iso`'s falsy test maps to `datetime.min`
exactly as the empty string is. -/
def entrySortKey (e : Entry) : PyDatetime :=
  match e.timestamp with
  | none => datetimeMin
  | some ts => _parse_iso ts

/-- "May precede" relation of the descending, stable sort
`entries.sort(key=..., reverse=True)`: `a` may precede `b` when `a`'s key is
at least `b`'s.  Only used on key lists of uniform awareness, where Python's
comparison is exactly the `absMicros` order. -/
def entryR (a b : Entry) : Prop :=
  absMicros (entrySortKey b) ≤ absMicros (entrySortKey a)

instance : DecidableRel entryR := fun a b =>
  inferInstanceAs (Decidable (absMicros (entrySortKey b) ≤ absMicros (entrySortKey a)))

/-- Model of `entries.sort(key=lambda x: x["_dt"], reverse=True)`, as the
stable insertion sort by `entryR` (Python's Timsort is stable and sorts by
the same total preorder, so it produces the same list).
CPython's Timsort compares every adjacent pair of keys during run
detection, and comparing a naive with an aware datetime raises `TypeError`;
hence the sort raises exactly when the key list contains both kinds, which
is modelled by `none`. -/
def sortEntriesDesc (es : List Entry) : Option (List Entry) :=
  if (es.map entrySortKey).any (fun k => isAware k)
      && (es.map entrySortKey).any (fun k => !isAware k) then none
  else some (List.insertionSort entryR es)

/-- One element of `post_items`: `{"userId": item.get("id", ""), "title":
item.get("timestamp", "")}`. -/
structure PostItem where
  userId : String
  title : String
deriving DecidableEq

/-- Map a normalized entry to its display item (`id` is always present
after normalization; an absent `timestamp` defaults to the empty string). -/
def entryToItem (e : Entry) : PostItem := ⟨e.id, e.timestamp.getD emptyStr⟩

/-- The decimal digit character of `d % 10`. -/
def digitChar (d : Nat) : Char := Char.ofNat (48 + d % 10)

/-- Two-digit zero-padded decimal string. -/
def pad2 (n : Nat) : String := ⟨[digitChar (n / 10), digitChar n]⟩

/-- Four-digit zero-padded decimal string. -/
def pad4 (n : Nat) : String :=
  ⟨[digitChar (n / 1000), digitChar (n / 100), digitChar (n / 10), digitChar n]⟩

/-- Python `dt.date().isoformat()`: the `YYYY-MM-DD` string of the calendar
fields (no timezone conversion is involved). -/
def dateIso (dt : PyDatetime) : String :=
  pad4 dt.year ++ "-" ++ pad2 dt.month ++ "-" ++ pad2 dt.day

/-- The bucket label of the no-timestamp case. -/
def sinFecha : String := "sin_fecha"

/-- The histogram bucket of an entry:
`d = _parse_iso(ts).date().isoformat() if ts else "sin_fecha"`, where an
absent key and the empty string are both falsy. -/
def bucketOf (e : Entry) : String :=
  match e.timestamp with
  | none => sinFecha
  | some ts => if ts = emptyStr then sinFecha else dateIso (_parse_iso ts)

/-- Strict lexicographic order on character lists by Unicode code point:
Python's `<` on strings. -/
def lexLt : List Char → List Char → Bool
  | [], [] => false
  | [], _ :: _ => true
  | _ :: _, [] => false
  | a :: as, b :: bs =>
    if a.toNat < b.toNat then true
    else if b.toNat < a.toNat then false
    else lexLt as bs

/-- Python string `<` as a proposition. -/
def strLtPy (a b : String) : Prop := lexLt a.data b.data = true

instance : DecidableRel strLtPy := fun a b =>
  inferInstanceAs (Decidable (lexLt a.data b.data = true))

/-- "May precede" relation of Python's ascending `sorted`: `a` may precede
`b` when `b < a` fails. -/
def strLePy (a b : String) : Prop := ¬ strLtPy b a

instance : DecidableRel strLePy := fun a b =>
  inferInstanceAs (Decidable (¬ strLtPy b a))

/-- Model of `round(s / n, 2)` scaled by 100: the round-half-to-even
integer nearest to `100 * s / n` (requires `n ≠ 0`).  This is an exact
integer encoding of the two-decimal float Python produces; binary
floating-point representation artifacts are outside the model. -/
def avgHundredths (s n : Nat) : Int :=
  let q : Nat := (100 * s) / n
  let r : Nat := (100 * s) % n
  if 2 * r < n then (q : Int)
  else if n < 2 * r then (q : Int) + 1
  else if q % 2 = 0 then (q : Int) else (q : Int) + 1

/-- The fixed page title of every render. -/
def pageTitle : String := "Landing Page\x27 Dashboard"

/-- The render context handed to the template: exactly the keys the view
builds.  `average_title_length_x100` holds the view's
`average_title_length` value scaled by 100, an exact integer encoding of
the two-decimal rounded average. -/
structure Context where
  page_title : String
  error_message : Option String
  posts_count : Nat
  users_count : Nat
  average_title_length_x100 : Int
  post_items : List PostItem
  graph_labels : List String
  graph_values : List Nat
deriving DecidableEq

/-- The success context built from the sorted entry list: display items,
counts, rounded average of title lengths (titles are the timestamp
strings), and the date histogram with labels sorted ascending. -/
def mkSuccessContext (sortedEntries : List Entry) : Context :=
  let post_items := sortedEntries.map entryToItem
  let buckets := sortedEntries.map bucketOf
  let labels := List.insertionSort strLePy buckets.dedup
  { page_title := pageTitle
    error_message := none
    posts_count := post_items.length
    users_count := (post_items.map PostItem.userId).dedup.length
    average_title_length_x100 :=
      if post_items.length = 0 then 0
      else avgHundredths (post_items.map (fun it => it.title.length)).sum
        post_items.length
    post_items := post_items
    graph_labels := labels
    graph_values := labels.map (fun lb => buckets.count lb) }

/-- The success path of `index_view` after the payload is obtained:
normalize, sort (which can raise, modelled by `none`), and aggregate. -/
def aggregate (p : JsonPayload) : Option Context :=
  (sortEntriesDesc (normalizeEntries (extractRaw p))).map mkSuccessContext

/-- The zeroed error context the three error branches build, differing only
in the message. -/
def errorContext (msg : String) : Context :=
  { page_title := pageTitle
    error_message := some msg
    posts_count := 0
    users_count := 0
    average_title_length_x100 := 0
    post_items := []
    graph_labels := []
    graph_values := [] }

/-- Message of the missing-configuration branch. -/
def configErrorMsg : String := "API_URL no está configurado en settings."

/-- Message of the invalid-JSON branch. -/
def jsonErrorMsg : String := "La API devolvió un JSON inválido."

/-- Head of the network-error message `f"Error al llamar a la API: {e}"`. -/
def apiErrorHead : String := "Error al llamar a la API: "

/-- Python `str.strip` restricted to ASCII whitespace. -/
def pyStrip (s : String) : String :=
  ⟨((s.data.dropWhile Char.isWhitespace).reverse.dropWhile
      Char.isWhitespace).reverse⟩

/-- Outcome of the outbound `requests.get` + `resp.raise_for_status()` +
`resp.json()` sequence.  `requestError msg` models any
`requests.exceptions.RequestException` (connection error, timeout, and the
`HTTPError` raised on a non-2xx status) with `str(e) = msg`; `jsonError`
models the `ValueError` of a non-JSON body. -/
inductive FetchOutcome where
  | requestError (msg : String)
  | jsonError
  | success (payload : JsonPayload)

/-- Model of `index_view` (its data path; authentication and template
rendering are external collaborators).  The result is the render context,
where `none` models an exception escaping to the HTTP layer. -/
def index_view (apiUrlSetting : String) (outcome : FetchOutcome) : Option Context :=
  if pyStrip apiUrlSetting = emptyStr then some (errorContext configErrorMsg)
  else
    match outcome with
    | .requestError msg => some (errorContext (apiErrorHead ++ msg))
    | .jsonError => some (errorContext jsonErrorMsg)
    | .success p => aggregate p

/-! ### Concrete inputs used by the claim theorems -/

/-- The context of a successful aggregation over no records. -/
def emptySuccessContext : Context := mkSuccessContext []

/-- A string that neither `fromisoformat` nor the fallback can parse. -/
def badTimestamp : String := "not-a-date"

/-- A `data` mapping yielding the three records of the specification's
example: ids `a`, `b`, `a` (the records' own `id` fields override the
mapping keys) with the example's timestamps. -/
def c1data : List (String × Option RawRecord) :=
  [("r1", some ⟨some ("a"), some ("2024-01-01T10:00:00Z")⟩),
   ("r2", some ⟨some ("b"), some ("2024-01-02T10:00:00.1Z")⟩),
   ("r3", some ⟨some ("a"), some ("")⟩)]

/-- The payload carrying `c1data`. -/
def c1payload : JsonPayload := .jobj (some (.dmap c1data))

/-- Two records, one with a `Z`-suffixed (hence timezone-aware) timestamp
and one with an empty timestamp (hence the naive `datetime.min` sentinel). -/
def c8data : List (String × Option RawRecord) :=
  [("a", some ⟨none, some ("2024-01-01T10:00:00Z")⟩),
   ("b", some ⟨none, some ("")⟩)]

/-- The payload carrying `c8data`. -/
def c8payload : JsonPayload := .jobj (some (.dmap c8data))

/-- Twenty-five records with distinct keys and no timestamp. -/
def c4data : List (String × Option RawRecord) :=
  (List.range 25).map (fun i => (⟨'r' :: (pad2 i).data⟩, some ⟨none, none⟩))

/-- The payload carrying `c4data`. -/
def c4payload : JsonPayload := .jobj (some (.dmap c4data))

/-- The context the view renders for `c4payload`. -/
def c4ctx : Context :=
  mkSuccessContext (List.insertionSort entryR (normalizeEntries (extractRaw c4payload)))

/-- One record whose own `id` field (`zzz`) differs from its mapping key
(`k`). -/
def c10data : List (String × Option RawRecord) := [("k", some ⟨some ("zzz"), none⟩)]

/-- The payload carrying `c10data`. -/
def c10payload : JsonPayload := .jobj (some (.dmap c10data))

/-- The context the view renders for `c10payload`. -/
def c10ctx : Context :=
  mkSuccessContext (List.insertionSort entryR (normalizeEntries (extractRaw c10payload)))

/-- The display item a raw mapping entry gives rise to: `userId` is the
record's own `id` field when present, the mapping key otherwise; `title`
is the record's timestamp string, empty when absent. -/
def rawToItem (kv : String × Option RawRecord) : PostItem :=
  let r := kv.2.getD ⟨none, none⟩
  ⟨r.id?.getD kv.1, r.timestamp?.getD emptyStr⟩

/-- The specification example's records with naive (offset-free)
timestamps: a payload on which the sort does not raise. -/
def naiveData : List (String × Option RawRecord) :=
  [("r1", some ⟨some ("a"), some ("2024-01-01T10:00:00")⟩),
   ("r2", some ⟨some ("b"), some ("2024-01-02T10:00:00.1")⟩),
   ("r3", some ⟨some ("a"), some ("")⟩)]

/-- The payload carrying `naiveData`. -/
def naivePayload : JsonPayload := .jobj (some (.dmap naiveData))

/-- The context the view renders for `naivePayload`. -/
def naiveCtx : Context :=
  mkSuccessContext (List.insertionSort entryR (normalizeEntries (extractRaw naivePayload)))

/-- A configured (non-blank) API URL for witness instantiation. -/
def witnessUrl : String := "http://api.example/landing"

/-- A concrete network-failure message for witness instantiation. -/
def witnessMsg : String := "connection timed out"

/-! ### Order lemmas for the Python string comparison -/

theorem lexLt_asymm : ∀ (a b : List Char), lexLt a b = true → lexLt b a = false := by
  intro a
  induction a with
  | nil =>
    intro b h
    cases b with
    | nil => simp [lexLt] at h
    | cons c cs => simp [lexLt]
  | cons x xs ih =>
    intro b h
    cases b with
    | nil => simp [lexLt] at h
    | cons y ys =>
      simp only [lexLt] at h ⊢
      by_cases h1 : x.toNat < y.toNat
      · have h2 : ¬ y.toNat < x.toNat := by omega
        simp [h1, h2]
      · by_cases h2 : y.toNat < x.toNat
        · simp [h1, h2] at h
        · simp only [if_neg h1, if_neg h2] at h ⊢
          exact ih ys h

theorem lexLt_trans :
    ∀ (a b c : List Char), lexLt a b = true → lexLt b c = true → lexLt a c = true := by
  intro a
  induction a with
  | nil =>
    intro b c hab hbc
    cases b with
    | nil => simp [lexLt] at hab
    | cons y ys =>
      cases c with
      | nil => simp [lexLt] at hbc
      | cons z zs => simp [lexLt]
  | cons x xs ih =>
    intro b c hab hbc
    cases b with
    | nil => simp [lexLt] at hab
    | cons y ys =>
      cases c with
      | nil => simp [lexLt] at hbc
      | cons z zs =>
        simp only [lexLt] at hab hbc ⊢
        by_cases hxy : x.toNat < y.toNat
        · by_cases hyz : y.toNat < z.toNat
          · have : x.toNat < z.toNat := by omega
            simp [this]
          · by_cases hzy : z.toNat < y.toNat
            · simp [hyz, hzy] at hbc
            · have hxz : x.toNat < z.toNat := by omega
              simp [hxz]
        · by_cases hyx : y.toNat < x.toNat
          · simp [hxy, hyx] at hab
          · by_cases hyz : y.toNat < z.toNat
            · have hxz : x.toNat < z.toNat := by omega
              simp [hxz]
            · by_cases hzy : z.toNat < y.toNat
              · simp [hyz, hzy] at hbc
              · have hxz : ¬ x.toNat < z.toNat := by omega
                have hzx : ¬ z.toNat < x.toNat := by omega
                simp only [if_neg hxy, if_neg hyx] at hab
                simp only [if_neg hyz, if_neg hzy] at hbc
                simp only [if_neg hxz, if_neg hzx]
                exact ih ys zs hab hbc

theorem lexLt_eq_of_not :
    ∀ (a b : List Char), lexLt a b = false → lexLt b a = false → a = b := by
  intro a
  induction a with
  | nil =>
    intro b hab _
    cases b with
    | nil => rfl
    | cons y ys => simp [lexLt] at hab
  | cons x xs ih =>
    intro b hab hba
    cases b with
    | nil => simp [lexLt] at hba
    | cons y ys =>
      simp only [lexLt] at hab hba
      by_cases hxy : x.toNat < y.toNat
      · simp [hxy] at hab
      · by_cases hyx : y.toNat < x.toNat
        · simp [hxy, hyx] at hba
        · simp only [if_neg hxy, if_neg hyx] at hab
          simp only [if_neg hyx, if_neg hxy] at hba
          have hn : x.toNat = y.toNat := by omega
          have hx : x = y := by
            have h2 := congrArg Char.ofNat hn
            rwa [Char.ofNat_toNat, Char.ofNat_toNat] at h2
          rw [hx, ih ys hab hba]

instance : IsTotal String strLePy := by
  constructor
  intro a b
  cases h : lexLt b.data a.data with
  | false => exact Or.inl (by simp [strLePy, strLtPy, h])
  | true =>
    refine Or.inr ?_
    intro hc
    have hc2 : lexLt a.data b.data = true := hc
    rw [lexLt_asymm _ _ h] at hc2
    exact Bool.false_ne_true hc2

instance : IsTrans String strLePy := by
  constructor
  intro a b c hab hbc hca
  cases h : lexLt b.data c.data with
  | true => exact hab (lexLt_trans _ _ _ h hca)
  | false =>
    have hcb : lexLt c.data b.data = false := by
      cases hcb : lexLt c.data b.data with
      | false => rfl
      | true => exact absurd hcb hbc
    have hd : b.data = c.data := lexLt_eq_of_not _ _ h hcb
    refine hab ?_
    show lexLt b.data a.data = true
    rw [hd]
    exact hca

/-! ### Inversion of the success path -/

/-- When `aggregate` produces a context, the sort did not raise and the
context is the one built from the insertion-sorted entry list. -/
theorem aggregate_some_eq {p : JsonPayload} {ctx : Context}
    (h : aggregate p = some ctx) :
    ctx = mkSuccessContext (List.insertionSort entryR (normalizeEntries (extractRaw p))) := by
  unfold aggregate sortEntriesDesc at h
  split at h
  · simp at h
  · simpa [Option.map] using h.symm

/-! ### Projections of the success context -/

theorem mkSuccessContext_post_items (l : List Entry) :
    (mkSuccessContext l).post_items = l.map entryToItem := rfl

theorem mkSuccessContext_posts_count (l : List Entry) :
    (mkSuccessContext l).posts_count = (l.map entryToItem).length := rfl

theorem mkSuccessContext_users_count (l : List Entry) :
    (mkSuccessContext l).users_count
      = ((l.map entryToItem).map PostItem.userId).dedup.length := rfl

theorem mkSuccessContext_error_message (l : List Entry) :
    (mkSuccessContext l).error_message = none := rfl

theorem mkSuccessContext_graph_labels (l : List Entry) :
    (mkSuccessContext l).graph_labels
      = List.insertionSort strLePy (l.map bucketOf).dedup := rfl

theorem mkSuccessContext_graph_values (l : List Entry) :
    (mkSuccessContext l).graph_values
      = (List.insertionSort strLePy (l.map bucketOf).dedup).map
          (fun lb => (l.map bucketOf).count lb) := rfl

/-- `getD` commutes with `map` at indices inside the list. -/
theorem getD_map_of_lt {α β : Type} (f : α → β) (d : β) (e : α) :
    ∀ (l : List α) (i : Nat), i < l.length → (l.map f).getD i d = f (l.getD i e) := by
  intro l
  induction l with
  | nil => intro i hi; simp at hi
  | cons x xs ih =>
    intro i hi
    cases i with
    | zero => rfl
    | succ j =>
      simp only [List.map_cons, List.getD_cons_succ]
      exact ih j (by simpa using hi)

/-! ### Claim theorems -/

/-- C1: at the specification's example input — three records with ids
`a`, `b`, `a` and timestamps `2024-01-01T10:00:00Z`, `2024-01-02T10:00:00.1Z`
and the empty string — the claimed aggregation (total 3, distinct 2,
histogram `["2024-01-01","2024-01-02","sin_fecha"]`/`[1,1,1]`) is never
produced: the first two sort keys are timezone-aware, the third is the
naive `datetime.min` sentinel, and `entries.sort` raises an uncaught
`TypeError`, modelled by `aggregate` returning `none`.  On the same three
records with the offsets removed (naive timestamps) the claimed statistics
do come out, which locates the bug in the aware/naive mixture alone. -/
theorem c1_example_payload_raises :
    aggregate c1payload = none ∧
    (aggregate naivePayload).map Context.posts_count = some 3 ∧
    (aggregate naivePayload).map Context.users_count = some 2 ∧
    (aggregate naivePayload).map Context.graph_labels
      = some (["2024-01-01", "2024-01-02", "sin_fecha"]) ∧
    (aggregate naivePayload).map Context.graph_values = some ([1, 1, 1]) := by
  decide

/-- C2: `_parse_iso` is total on strings — it always returns a datetime
value (every exception site of its body is caught) — and when the input is
empty, or both the direct `fromisoformat` call and the fraction-padding
fallback fail on the `Z`-normalized string, the result is the minimal
sentinel `datetime.min`. -/
theorem c2_parse_iso_total_and_sentinel (ts : String) :
    (∃ d : PyDatetime, _parse_iso ts = d) ∧
    ((ts = emptyStr ∨
        (fromisoformatOpt (pyReplaceZ ts) = none ∧
          parseIsoFallback (pyReplaceZ ts) = none)) →
      _parse_iso ts = datetimeMin) := by
  refine ⟨⟨_parse_iso ts, rfl⟩, ?_⟩
  intro h
  rcases h with h | ⟨h1, h2⟩
  · simp [_parse_iso, h]
  · by_cases he : ts = emptyStr
    · simp [_parse_iso, he]
    · simp [_parse_iso, he, h1, h2]

/-- Witness for C2 at the unparseable input `not-a-date`. -/
theorem c2_parse_iso_total_and_sentinel_witness :
    _parse_iso badTimestamp = datetimeMin :=
  (c2_parse_iso_total_and_sentinel badTimestamp).2 (Or.inr (by decide))

/-- C7: whenever the payload's data mapping is empty, the aggregation
succeeds with every metric zero and both histogram sequences empty. -/
theorem c7_empty_input_zeroes (p : JsonPayload) (h : extractRaw p = []) :
    aggregate p = some emptySuccessContext ∧
    emptySuccessContext.posts_count = 0 ∧
    emptySuccessContext.users_count = 0 ∧
    emptySuccessContext.average_title_length_x100 = 0 ∧
    emptySuccessContext.graph_labels = [] ∧
    emptySuccessContext.graph_values = [] := by
  refine ⟨?_, by decide, by decide, by decide, by decide, by decide⟩
  unfold aggregate sortEntriesDesc
  rw [h]
  decide

/-- Witness for C7 at the payload whose `data` value is the empty mapping. -/
theorem c7_empty_input_zeroes_witness :
    aggregate (JsonPayload.jobj (some (DataVal.dmap []))) = some emptySuccessContext ∧
    emptySuccessContext.posts_count = 0 ∧
    emptySuccessContext.users_count = 0 ∧
    emptySuccessContext.average_title_length_x100 = 0 ∧
    emptySuccessContext.graph_labels = [] ∧
    emptySuccessContext.graph_values = [] :=
  c7_empty_input_zeroes (JsonPayload.jobj (some (DataVal.dmap []))) (by decide)

/-- C9: a `None` payload, a payload object without a `data` key, and a
`null` `data` value all degrade, without raising, to the empty aggregation
with `error_message` equal to `None`. -/
theorem c9_missing_data_degrades :
    aggregate JsonPayload.jnull = some emptySuccessContext ∧
    aggregate (JsonPayload.jobj none) = some emptySuccessContext ∧
    aggregate (JsonPayload.jobj (some DataVal.dnull)) = some emptySuccessContext ∧
    emptySuccessContext.error_message = none ∧
    emptySuccessContext.posts_count = 0 ∧
    emptySuccessContext.users_count = 0 ∧
    emptySuccessContext.average_title_length_x100 = 0 ∧
    emptySuccessContext.post_items = [] ∧
    emptySuccessContext.graph_labels = [] ∧
    emptySuccessContext.graph_values = [] := by decide

/-- C8: the claimed ordering guarantee (sentinel-dated records sort after
all parseable ones) is not delivered when the parseable timestamps carry a
UTC offset: at a payload with one `Z`-suffixed timestamp and one empty
timestamp, the sort compares an aware datetime with the naive sentinel and
raises an uncaught `TypeError`, modelled by `aggregate` returning `none`. -/
theorem c8_mixed_awareness_sort_raises : aggregate c8payload = none := by decide

/-- C3: for every configured URL and every request failure (connection
error, timeout, or the `HTTPError` of a non-2xx status — all covered by
`FetchOutcome.requestError`), the view returns a context with every metric
zeroed, empty display and histogram sequences, and a non-empty error
message; no exception escapes (the result is `some _`). -/
theorem c3_request_error_degrades (url msg : String) (h : pyStrip url ≠ emptyStr) :
    index_view url (.requestError msg) = some (errorContext (apiErrorHead ++ msg)) ∧
    (errorContext (apiErrorHead ++ msg)).error_message = some (apiErrorHead ++ msg) ∧
    (errorContext (apiErrorHead ++ msg)).posts_count = 0 ∧
    (errorContext (apiErrorHead ++ msg)).users_count = 0 ∧
    (errorContext (apiErrorHead ++ msg)).average_title_length_x100 = 0 ∧
    (errorContext (apiErrorHead ++ msg)).post_items = [] ∧
    (errorContext (apiErrorHead ++ msg)).graph_labels = [] ∧
    (errorContext (apiErrorHead ++ msg)).graph_values = [] ∧
    apiErrorHead ++ msg ≠ emptyStr := by
  refine ⟨?_, rfl, rfl, rfl, rfl, rfl, rfl, rfl, ?_⟩
  · unfold index_view
    rw [if_neg h]
  · intro hc
    have h3 : (apiErrorHead ++ msg).data.length = emptyStr.data.length :=
      congrArg (fun s : String => s.data.length) hc
    have h4 : (apiErrorHead ++ msg).data = apiErrorHead.data ++ msg.data := rfl
    rw [h4, List.length_append] at h3
    have h5 : apiErrorHead.data.length = 26 := rfl
    have h6 : emptyStr.data.length = 0 := rfl
    omega

/-- Witness for C3 at a concrete URL and failure message. -/
theorem c3_request_error_degrades_witness :
    index_view witnessUrl (.requestError witnessMsg)
        = some (errorContext (apiErrorHead ++ witnessMsg)) ∧
    (errorContext (apiErrorHead ++ witnessMsg)).error_message
        = some (apiErrorHead ++ witnessMsg) ∧
    (errorContext (apiErrorHead ++ witnessMsg)).posts_count = 0 ∧
    (errorContext (apiErrorHead ++ witnessMsg)).users_count = 0 ∧
    (errorContext (apiErrorHead ++ witnessMsg)).average_title_length_x100 = 0 ∧
    (errorContext (apiErrorHead ++ witnessMsg)).post_items = [] ∧
    (errorContext (apiErrorHead ++ witnessMsg)).graph_labels = [] ∧
    (errorContext (apiErrorHead ++ witnessMsg)).graph_values = [] ∧
    apiErrorHead ++ witnessMsg ≠ emptyStr :=
  c3_request_error_degrades witnessUrl witnessMsg (by decide)

/-- C4 counterexample: at a payload of 25 records the display list passed
to the template holds all 25 entries, not at most 20 — the code never
truncates `post_items`. -/
theorem c4_no_truncation_counterexample :
    aggregate c4payload = some c4ctx ∧ c4ctx.posts_count = 25 ∧
    c4ctx.post_items.length = 25 ∧ ¬ (c4ctx.post_items.length ≤ 20) := by decide

/-- C4 amended: the display list always holds exactly one item per input
record — no truncation — and `posts_count` equals that same full length. -/
theorem c4_display_list_full_length (p : JsonPayload) (ctx : Context)
    (h : aggregate p = some ctx) :
    ctx.post_items.length = (extractRaw p).length ∧
    ctx.posts_count = (extractRaw p).length := by
  have e := aggregate_some_eq h
  subst e
  have hl : ((List.insertionSort entryR (normalizeEntries (extractRaw p))).map
      entryToItem).length = (extractRaw p).length := by
    rw [List.length_map, (List.perm_insertionSort entryR _).length_eq,
      normalizeEntries, List.length_map]
  exact ⟨hl, hl⟩

/-- Witness for the amended C4 at the 25-record payload. -/
theorem c4_display_list_full_length_witness :
    c4ctx.post_items.length = (extractRaw c4payload).length ∧
    c4ctx.posts_count = (extractRaw c4payload).length :=
  c4_display_list_full_length c4payload c4ctx (by decide)

/-- C5: whenever the view completes (the sort does not raise), the
histogram is well formed: the value sequence has the length of the label
sequence, the value at every index is the number of records whose bucket
is the label at that index, and the labels are sorted ascending in
Python's string order. -/
theorem c5_histogram_well_formed (p : JsonPayload) (ctx : Context)
    (h : aggregate p = some ctx) :
    ctx.graph_values.length = ctx.graph_labels.length ∧
    (∀ i, i < ctx.graph_labels.length →
      ctx.graph_values.getD i 0 =
        ((normalizeEntries (extractRaw p)).map bucketOf).count
          (ctx.graph_labels.getD i emptyStr)) ∧
    ctx.graph_labels.Sorted strLePy := by
  have e := aggregate_some_eq h
  subst e
  refine ⟨?_, ?_, ?_⟩
  · rw [mkSuccessContext_graph_values, mkSuccessContext_graph_labels,
      List.length_map]
  · intro i hi
    rw [mkSuccessContext_graph_labels] at hi
    rw [mkSuccessContext_graph_values, mkSuccessContext_graph_labels,
      getD_map_of_lt _ _ emptyStr _ i hi]
    exact ((List.perm_insertionSort entryR
      (normalizeEntries (extractRaw p))).map bucketOf).count_eq _
  · rw [mkSuccessContext_graph_labels]
    exact List.sorted_insertionSort strLePy _

/-- Witness for C5 at the three-record naive-timestamp payload,
instantiating the index alignment at index 0. -/
theorem c5_histogram_well_formed_witness :
    naiveCtx.graph_values.length = naiveCtx.graph_labels.length ∧
    naiveCtx.graph_values.getD 0 0 =
      ((normalizeEntries (extractRaw naivePayload)).map bucketOf).count
        (naiveCtx.graph_labels.getD 0 emptyStr) ∧
    naiveCtx.graph_labels.Sorted strLePy := by
  have h := c5_histogram_well_formed naivePayload naiveCtx (by decide)
  exact ⟨h.1, h.2.1 0 (by decide), h.2.2⟩

/-- C6: whenever the view completes, the number of distinct group
identifiers is at most the total record count. -/
theorem c6_users_le_posts (p : JsonPayload) (ctx : Context)
    (h : aggregate p = some ctx) :
    ctx.users_count ≤ ctx.posts_count := by
  have e := aggregate_some_eq h
  subst e
  rw [mkSuccessContext_users_count, mkSuccessContext_posts_count]
  calc (((List.insertionSort entryR (normalizeEntries (extractRaw p))).map
          entryToItem).map PostItem.userId).dedup.length
      ≤ (((List.insertionSort entryR (normalizeEntries (extractRaw p))).map
          entryToItem).map PostItem.userId).length :=
        (List.dedup_sublist _).length_le
    _ = ((List.insertionSort entryR (normalizeEntries (extractRaw p))).map
          entryToItem).length := List.length_map _ _

/-- Witness for C6 at the three-record naive-timestamp payload. -/
theorem c6_users_le_posts_witness : naiveCtx.users_count ≤ naiveCtx.posts_count :=
  c6_users_le_posts naivePayload naiveCtx (by decide)

/-- C10 counterexample: at a payload whose single record carries its own
`id` field `zzz` under mapping key `k`, the displayed `userId` is `zzz`,
not the mapping key — the record's `id` field overrides the key in
`{"id": k, **(v or {})}`. -/
theorem c10_userid_key_counterexample :
    aggregate c10payload = some c10ctx ∧
    c10ctx.post_items.map PostItem.userId = [("zzz" : String)] ∧
    (extractRaw c10payload).map Prod.fst = [("k" : String)] ∧
    ("zzz" : String) ≠ ("k" : String) := by decide

/-- C10 amended: each displayed item's `userId` is the record's own `id`
field when present and the mapping key otherwise, its `title` is the
record's timestamp string (empty when absent), and the average title
length is the rounded mean of those title (timestamp) strings' lengths. -/
theorem c10_post_items_fields (p : JsonPayload) (ctx : Context)
    (h : aggregate p = some ctx) :
    ctx.post_items.Perm ((extractRaw p).map rawToItem) ∧
    ctx.average_title_length_x100 =
      (if ctx.post_items.length = 0 then (0 : Int)
       else avgHundredths (ctx.post_items.map (fun it => it.title.length)).sum
        ctx.post_items.length) := by
  have e := aggregate_some_eq h
  subst e
  constructor
  · have hp := (List.perm_insertionSort entryR
      (normalizeEntries (extractRaw p))).map entryToItem
    have he : (normalizeEntries (extractRaw p)).map entryToItem
        = (extractRaw p).map rawToItem := by
      rw [normalizeEntries, List.map_map]
      rfl
    rw [mkSuccessContext_post_items]
    exact he ▸ hp
  · rfl

/-- Witness for the amended C10 at the id-overriding payload. -/
theorem c10_post_items_fields_witness :
    c10ctx.post_items.Perm ((extractRaw c10payload).map rawToItem) ∧
    c10ctx.average_title_length_x100 =
      (if c10ctx.post_items.length = 0 then (0 : Int)
       else avgHundredths (c10ctx.post_items.map (fun it => it.title.length)).sum
        c10ctx.post_items.length) :=
  c10_post_items_fields c10payload c10ctx (by decide)

end DataMonitor
